import Mathlib

/-!
Shallow embedding of `src/app.py`, a Flask façade over the pytube
extractor.  The embedding covers: the URL validator
(`is_valid_youtube_url`), the metadata pipeline (`get_video_info`), the
stream pipeline (`stream_video`), filename derivation, the chunked
response generator (`generate`), and the two API handlers (`video_info`,
`download`).  Logging, CORS and the real network fetch are effects outside
the embedding; the pytube adapter is represented by the `Upstream` value
the surrounding code observes, following the Extractor Adapter contract.
All strings are the source's literal (Chinese) message strings.
-/

deriving instance DecidableEq for Except

namespace App

/-- Global configuration, `src/app.py` line 32: maximum video duration in
seconds (one hour). -/
def MAX_VIDEO_DURATION : Nat := 3600

/-- Global configuration, `src/app.py` line 33: the domain allow-list. -/
def ALLOWED_DOMAINS : List String := ["youtube.com", "youtu.be"]

/-- Boolean test that `pat` is a prefix of `s` (used to model anchored
regex pieces such as the literal scheme `http://`). -/
def beginsWith (pat s : List Char) : Bool :=
  s.take pat.length == pat

/-- Attempt of the regex `https?://(www\.)?([^/]+)` anchored at the start
of `s`; returns group 2 (the domain) on success.  The only backtracking
the pattern admits is the optional `www.`: when `www.` is present but not
followed by a non-slash character, the group instead starts at the
`www.` itself (greedy `(www\.)?` gives the characters back). -/
def matchHttpAt (s : List Char) : Option (List Char) :=
  let afterScheme :=
    if beginsWith "https://".data s then some (s.drop 8)
    else if beginsWith "http://".data s then some (s.drop 7)
    else none
  match afterScheme with
  | none => none
  | some r =>
    if beginsWith "www.".data r &&
        (match r.drop 4 with
         | c :: _ => c != '/'
         | [] => false) then
      some ((r.drop 4).takeWhile (fun c => c != '/'))
    else
      let g := r.takeWhile (fun c => c != '/')
      if g.isEmpty then none else some g

/-- Left-to-right scan of `re.search(r'https?://(www\.)?([^/]+)', url)`
returning the captured domain, `src/app.py` line 39. -/
def searchDomain : List Char → Option (List Char)
  | [] => none
  | c :: cs =>
    match matchHttpAt (c :: cs) with
    | some d => some d
    | none => searchDomain cs

/-- Domain acceptance test of `src/app.py` line 40: membership in
`ALLOWED_DOMAINS` or a suffix match against one of its entries. -/
def domainAllowed (d : String) : Bool :=
  ALLOWED_DOMAINS.contains d ||
    ALLOWED_DOMAINS.any (fun a => List.isSuffixOf a.data d.data)

/-- Character class `[0-9A-Za-z_-]` of the video-id regex. -/
def idChar (c : Char) : Bool :=
  (('0' ≤ c && c ≤ '9') || ('A' ≤ c && c ≤ 'Z') || ('a' ≤ c && c ≤ 'z')
    || c == '_' || c == '-')

/-- Attempt of the regex `(?:v=|\/)([0-9A-Za-z_-]{11})` anchored at the
start of `s`: a literal `v=` or `/` followed by at least 11 characters of
the id class. -/
def idAt (s : List Char) : Bool :=
  (beginsWith "v=".data s &&
    decide (11 ≤ (s.drop 2).length) && ((s.drop 2).take 11).all idChar) ||
  (beginsWith "/".data s &&
    decide (11 ≤ (s.drop 1).length) && ((s.drop 1).take 11).all idChar)

/-- Left-to-right scan of `re.search(r'(?:v=|\/)([0-9A-Za-z_-]{11})', url)`
as a boolean, `src/app.py` line 44. -/
def hasVideoId : List Char → Bool
  | [] => false
  | c :: cs => idAt (c :: cs) || hasVideoId cs

/-- The URL validator, `src/app.py` lines 35-47.  A failed domain search
(`.group(2)` on `None` raises) is swallowed by the bare `except` and
yields `false`. -/
def is_valid_youtube_url (url : String) : Bool :=
  match searchDomain url.data with
  | none => false
  | some d =>
    if domainAllowed (String.mk d) then hasVideoId url.data
    else false

/-- Message of the ValueError raised at `src/app.py` line 56; the f-string
interpolates `MAX_VIDEO_DURATION//60`. -/
def DURATION_LIMIT_MESSAGE : String :=
  "视频时长超过限制(" ++ toString (MAX_VIDEO_DURATION / 60) ++ "分钟)"

/-- Message of the ValueError raised at `src/app.py` line 100
("invalid resolution" in the spec's rendering). -/
def INVALID_RESOLUTION_MESSAGE : String := "无效的视频分辨率"

/-- Head of the generic wrapping message of `src/app.py` lines 89 and 115
("error processing video: " in the spec's rendering). -/
def PROCESSING_ERROR_HEAD : String := "处理视频时出错: "

/-- Age-restricted message, `src/app.py` line 84. -/
def AGE_RESTRICTED_MESSAGE : String := "该视频受年龄限制，无法下载"

/-- Unavailable-video message, `src/app.py` line 86. -/
def UNAVAILABLE_MESSAGE : String := "视频不可用或已被删除"

/-- Missing video-id message of `src/app.py` line 124 ("missing video ID
parameter" in the spec's rendering). -/
def MISSING_ID_MESSAGE : String := "缺少视频ID参数"

/-- Missing required-parameters message of `src/app.py` line 144. -/
def MISSING_PARAMS_MESSAGE : String := "缺少必要参数"

/-- Generic 500 body message of `src/app.py` lines 134 and 174
("internal server error" in the spec's rendering). -/
def INTERNAL_ERROR_MESSAGE : String := "服务器内部错误"

/-- A raw stream of the Extractor Adapter (one pytube `Stream`): opaque
handle, resolution label, declared filesize, frame rate, MIME type, the
progressive flag, and the bytes `stream_to_buffer` would materialize. -/
structure RawStream where
  itag : String
  resolution : String
  filesize : Nat
  fps : Nat
  mime_type : String
  progressive : Bool
  content : List Nat
deriving DecidableEq

/-- Outcome of resolving a video id through the Extractor Adapter
(`YouTube(...)` plus its attribute accesses): either the video's data or
one of the failure kinds the adapter distinguishes
(`AgeRestrictedError`, `VideoUnavailable`, any other exception). -/
inductive Upstream where
  | ok (title author thumbnail_url : String) (length : Nat)
       (streams : List RawStream)
  | ageRestrictedErr (detail : String)
  | videoUnavailableErr (detail : String)
  | upstreamFailure (detail : String)
deriving DecidableEq

/-- A Python exception as the two pipeline functions classify them. -/
inductive PyExc where
  | valueError (msg : String)
  | ageRestricted (msg : String)
  | videoUnavailable (msg : String)
  | otherError (msg : String)
deriving DecidableEq

/-- The `str(e)` rendering of an exception. -/
def PyExc.message : PyExc → String
  | .valueError m => m
  | .ageRestricted m => m
  | .videoUnavailable m => m
  | .otherError m => m

/-- One formatted descriptor of `src/app.py` lines 67-73. -/
structure StreamInfo where
  itag : String
  resolution : String
  filesize : Nat
  fps : Nat
  type : String
deriving DecidableEq

/-- The metadata object of `src/app.py` lines 75-81. -/
structure VideoInfo where
  title : String
  author : String
  duration : Nat
  thumbnail_url : String
  streams : List StreamInfo
deriving DecidableEq

/-- Splitting a character list at every occurrence of `c`, as Python's
`str.split`. -/
def splitOnChar (c : Char) : List Char → List (List Char)
  | [] => [[]]
  | x :: xs =>
    if x == c then [] :: splitOnChar c xs
    else
      match splitOnChar c xs with
      | h :: t => (x :: h) :: t
      | [] => [[x]]

/-- The `mime_type.split('/')[1]` access of `src/app.py` line 72 (and of
pytube's `file_extension` property used by the `filter` call). -/
def mime_subtype (m : String) : String :=
  String.mk ((splitOnChar '/' m.data).getD 1 [])

/-- Modelled from the spec: the numeric-height key the Extractor
Adapter's `order_by('resolution')` sorts by (pytube parses the digits of
the resolution label, e.g. "720p" to 720); the adapter code itself lives
outside this repository. -/
def digitsVal (s : String) : Nat :=
  (s.data.filter Char.isDigit).foldl (fun n c => n * 10 + (c.toNat - 48)) 0

/-- Numeric-height key of one raw stream. -/
def resolutionKey (s : RawStream) : Nat := digitsVal s.resolution

/-- Ascending comparison on the numeric-height key. -/
def streamLE (a b : RawStream) : Prop := resolutionKey a ≤ resolutionKey b

instance : DecidableRel streamLE :=
  fun a b => Nat.decLe (resolutionKey a) (resolutionKey b)

instance : IsTotal RawStream streamLE :=
  ⟨fun a b => Nat.le_total (resolutionKey a) (resolutionKey b)⟩

instance : IsTrans RawStream streamLE := ⟨fun _ _ _ => Nat.le_trans⟩

/-- Modelled from the spec: the adapter's `order_by('resolution')`, a
stable ascending sort by numeric height. -/
def order_by_resolution (l : List RawStream) : List RawStream :=
  List.insertionSort streamLE l

/-- Modelled from the spec: `order_by('resolution').desc()`, the
ascending sort reversed, `src/app.py` line 62. -/
def order_by_resolution_desc (l : List RawStream) : List RawStream :=
  (order_by_resolution l).reverse

/-- The progressive-MP4 filter of `src/app.py` lines 59-62:
`filter(file_extension='mp4', progressive=True)`. -/
def progressiveMp4 (l : List RawStream) : List RawStream :=
  l.filter (fun s => s.progressive && mime_subtype s.mime_type == "mp4")

/-- Python `str.upper()`, applied characterwise. -/
def strUpper (s : String) : String := String.mk (s.data.map Char.toUpper)

/-- Formatting of one stream, `src/app.py` lines 67-73: the `type` field
is the uppercased MIME subtype. -/
def formatStream (s : RawStream) : StreamInfo :=
  ⟨s.itag, s.resolution, s.filesize, s.fps, strUpper (mime_subtype s.mime_type)⟩

/-- Body of the `try` block of `get_video_info`, `src/app.py` lines
51-81: duration ceiling check, then filtering, ordering and formatting of
the streams. -/
def get_video_info_try (u : Upstream) : Except PyExc VideoInfo :=
  match u with
  | .ageRestrictedErr d => .error (.ageRestricted d)
  | .videoUnavailableErr d => .error (.videoUnavailable d)
  | .upstreamFailure d => .error (.otherError d)
  | .ok title author thumbnail_url length streams =>
    if MAX_VIDEO_DURATION < length then
      .error (.valueError DURATION_LIMIT_MESSAGE)
    else
      .ok ⟨title, author, length, thumbnail_url,
        (order_by_resolution_desc (progressiveMp4 streams)).map formatStream⟩

/-- `get_video_info`, `src/app.py` lines 49-89: the `try` body followed
by the `except` chain.  The final `except Exception` catches any
exception not matched earlier - including the ValueError raised by the
duration check - and re-raises it as a ValueError with the generic
head prepended, so every error of this function is a ValueError. -/
def get_video_info (u : Upstream) : Except String VideoInfo :=
  match get_video_info_try u with
  | .ok v => .ok v
  | .error (.ageRestricted _) => .error AGE_RESTRICTED_MESSAGE
  | .error (.videoUnavailable _) => .error UNAVAILABLE_MESSAGE
  | .error e => .error (PROCESSING_ERROR_HEAD ++ PyExc.message e)

/-- Python ASCII word character of the regex class `\w` (the Unicode
extension is irrelevant to the embedded inputs). -/
def wordChar (c : Char) : Bool := c.isAlphanum || c == '_'

/-- The kept characters of `re.sub(r'[^\w\-_. ]', '', title)`,
`src/app.py` line 103: word characters, hyphen, underscore, period,
space; every other character is removed. -/
def filenameChar (c : Char) : Bool :=
  wordChar c || c == '-' || c == '_' || c == '.' || c == ' '

/-- Sanitized title, `src/app.py` line 103. -/
def safe_title (t : String) : String :=
  String.mk (t.data.filter filenameChar)

/-- Filename derivation, `src/app.py` lines 103-104:
`f"{safe_title}_{stream.resolution}.mp4"`. -/
def derive_filename (title resolution : String) : String :=
  safe_title title ++ "_" ++ resolution ++ ".mp4"

/-- `yt.streams.get_by_itag(itag)`, `src/app.py` line 97: lookup of the
handle among the video's streams. -/
def get_by_itag (streams : List RawStream) (itag : String) : Option RawStream :=
  streams.find? (fun s => s.itag == itag)

/-- The value returned from a successful `stream_video`: the materialized
buffer, the derived filename and the declared filesize. -/
structure StreamPayload where
  byte_stream : List Nat
  filename : String
  filesize : Nat
deriving DecidableEq

/-- Body of the `try` block of `stream_video`, `src/app.py` lines
93-111, paired with the number of `io.BytesIO()` buffers created: the
buffer at line 107 is allocated only after the itag lookup succeeded. -/
def stream_video_try (u : Upstream) (itag : String) :
    Except PyExc StreamPayload × Nat :=
  match u with
  | .ageRestrictedErr d => (.error (.ageRestricted d), 0)
  | .videoUnavailableErr d => (.error (.videoUnavailable d), 0)
  | .upstreamFailure d => (.error (.otherError d), 0)
  | .ok title _ _ _ streams =>
    match get_by_itag streams itag with
    | none => (.error (.valueError INVALID_RESOLUTION_MESSAGE), 0)
    | some s =>
      (.ok ⟨s.content, derive_filename title s.resolution, s.filesize⟩, 1)

/-- `stream_video`, `src/app.py` lines 91-115: the `try` body followed by
the single `except Exception` handler, which re-raises every exception -
including the invalid-itag ValueError - as a ValueError with the generic
head prepended.  The second component counts buffer allocations. -/
def stream_video (u : Upstream) (itag : String) :
    Except String StreamPayload × Nat :=
  match stream_video_try u itag with
  | (.ok p, n) => (.ok p, n)
  | (.error e, n) => (.error (PROCESSING_ERROR_HEAD ++ PyExc.message e), n)

/-- Chunk size of the download generator, `src/app.py` line 151. -/
def CHUNK_SIZE : Nat := 1024 * 1024

/-- State of the `generate()` generator of `src/app.py` lines 150-157:
the bytes still unread in `byte_stream` (past the current position), how
many times `byte_stream.close()` has run, and whether the generator has
terminated. -/
structure GenState where
  remaining : List Nat
  closeCount : Nat
  finished : Bool
deriving DecidableEq

/-- Generator freshly created over a buffer positioned at the start. -/
def genInit (data : List Nat) : GenState := ⟨data, 0, false⟩

/-- One `next()` call on the generator: reads up to `CHUNK_SIZE` bytes;
an empty read breaks the loop, runs `byte_stream.close()` and raises
StopIteration (modelled as `none`); otherwise the chunk is yielded. -/
def generate_next (s : GenState) : Option (List Nat) × GenState :=
  if s.finished then (none, s)
  else
    let chunk := s.remaining.take CHUNK_SIZE
    if chunk.isEmpty then
      (none, ⟨s.remaining, s.closeCount + 1, true⟩)
    else
      (some chunk, ⟨s.remaining.drop CHUNK_SIZE, s.closeCount, false⟩)

/-- Closing the generator early (the GeneratorExit a client disconnect
injects at the suspended `yield`): the loop body of `generate()` has no
`try`/`finally`, so the pending `byte_stream.close()` at line 157 is not
executed and only the termination flag changes. -/
def generate_close (s : GenState) : GenState :=
  ⟨s.remaining, s.closeCount, true⟩

/-- The chunk sequence `generate()` yields to a consumer that drains it,
computed with a fuel argument so the recursion is structural. -/
def chunksAux : Nat → List Nat → List (List Nat)
  | 0, _ => []
  | _ + 1, [] => []
  | fuel + 1, d => d.take CHUNK_SIZE :: chunksAux fuel (d.drop CHUNK_SIZE)

/-- All chunks of a buffer (`data.length` is always enough fuel, since
every step consumes at least one byte). -/
def generate_chunks (data : List Nat) : List (List Nat) :=
  chunksAux data.length data

/-- Exception classification inside an endpoint handler's `try` block:
the `except ValueError` arm versus the final `except Exception` arm. -/
inductive HandlerErr where
  | valueError (msg : String)
  | otherExc (msg : String)
deriving DecidableEq

/-- Falsiness of an optional query parameter: `request.args.get` returns
`None` when absent, and the empty string is also falsy in Python, so
`if not video_id` treats both alike. -/
def falsy : Option String → Bool
  | none => true
  | some s => s == ""

/-- A JSON response of the `/api/video-info` handler: status code, the
`error` field of the body if present, and the metadata if present. -/
structure JsonResponse where
  status : Nat
  error_field : Option String
  info : Option VideoInfo
deriving DecidableEq

/-- The `/api/video-info` handler, `src/app.py` lines 118-134,
parameterized by the outcome of the fallible body (`get_video_info` and
the subsequent `jsonify`): missing or empty `video_id` gives 400 with the
missing-parameter message, a ValueError gives 400 with its message, any
other exception gives 500 with the generic message. -/
def video_info (video_id : Option String)
    (fetch : String → Except HandlerErr VideoInfo) : JsonResponse :=
  if falsy video_id then ⟨400, some MISSING_ID_MESSAGE, none⟩
  else
    match fetch (video_id.getD "") with
    | .ok i => ⟨200, none, some i⟩
    | .error (.valueError m) => ⟨400, some m, none⟩
    | .error (.otherExc _) => ⟨500, some INTERNAL_ERROR_MESSAGE, none⟩

/-- The concrete `/api/video-info` body: `get_video_info` raises only
ValueError (its `except` chain wraps everything into one), so its errors
enter the handler as the ValueError kind. -/
def pipelineOf (world : String → Upstream) :
    String → Except HandlerErr VideoInfo :=
  fun v =>
    match get_video_info (world v) with
    | .ok i => .ok i
    | .error m => .error (.valueError m)

/-- A response of the `/api/download` handler: status, the four headers
set at `src/app.py` lines 160-166, the yielded body chunks, and the
`error` body field for failure responses. -/
structure DownloadResponse where
  status : Nat
  content_type : Option String
  content_disposition : Option String
  content_length : Option String
  accept_ranges : Option String
  body_chunks : List (List Nat)
  error_field : Option String
deriving DecidableEq

/-- A `jsonify({'error': ...}), code` failure response (its own
`application/json` content type is not modelled). -/
def jsonError (status : Nat) (msg : String) : DownloadResponse :=
  ⟨status, none, none, none, none, [], some msg⟩

/-- The `/api/download` handler, `src/app.py` lines 137-174,
parameterized by the outcome of the fallible body (`stream_video`):
missing or empty parameters give 400; a successful stream gives a 200
response with the video headers and the generator's chunks (as consumed
by a caller that drains it); a ValueError gives 400 with its message; any
other exception gives 500. -/
def download (video_id resolution : Option String)
    (openStream : String → String → Except HandlerErr StreamPayload) :
    DownloadResponse :=
  if falsy video_id || falsy resolution then
    jsonError 400 MISSING_PARAMS_MESSAGE
  else
    match openStream (video_id.getD "") (resolution.getD "") with
    | .ok p =>
      ⟨200, some "video/mp4",
        some ("attachment; filename=" ++ p.filename),
        some (toString p.filesize), some "bytes",
        generate_chunks p.byte_stream, none⟩
    | .error (.valueError m) => jsonError 400 m
    | .error (.otherExc _) => jsonError 500 INTERNAL_ERROR_MESSAGE

/-- The concrete `/api/download` body: `stream_video` raises only
ValueError, so its errors enter the handler as the ValueError kind. -/
def downloadPipelineOf (world : String → Upstream) :
    String → String → Except HandlerErr StreamPayload :=
  fun v i =>
    match (stream_video (world v) i).1 with
    | .ok p => .ok p
    | .error m => .error (.valueError m)

/-- Descending comparison on formatted descriptors: the later one's
numeric height does not exceed the earlier one's. -/
def infoGE (d e : StreamInfo) : Prop :=
  digitsVal e.resolution ≤ digitsVal d.resolution

instance : DecidableRel infoGE :=
  fun d e => Nat.decLe (digitsVal e.resolution) (digitsVal d.resolution)

/-- Sample progressive MP4 stream, 360p. -/
def sampleStream360 : RawStream :=
  ⟨"18", "360p", 1000, 30, "video/mp4", true, [1, 2, 3]⟩

/-- Sample progressive MP4 stream, 720p. -/
def sampleStream720 : RawStream :=
  ⟨"22", "720p", 2000, 30, "video/mp4", true, [4, 5]⟩

/-- Sample progressive WebM stream (filtered out by container). -/
def sampleStreamWebm : RawStream :=
  ⟨"43", "1080p", 3000, 30, "video/webm", true, [6]⟩

/-- Sample adaptive MP4 stream (filtered out by progressiveness). -/
def sampleStreamAdaptive : RawStream :=
  ⟨"137", "1080p", 4000, 24, "video/mp4", false, [7]⟩

/-- Sample upstream video carrying the four streams above, below the
duration ceiling. -/
def sampleUpstream : Upstream :=
  Upstream.ok "Title" "Author" "Thumb" 120
    [sampleStream360, sampleStreamAdaptive, sampleStream720, sampleStreamWebm]

/-- The metadata `get_video_info` produces for `sampleUpstream`. -/
def sampleResult : VideoInfo :=
  ⟨"Title", "Author", 120, "Thumb",
    [⟨"22", "720p", 2000, 30, "MP4"⟩, ⟨"18", "360p", 1000, 30, "MP4"⟩]⟩

/-- Sample download body that succeeds with a three-byte payload. -/
def sampleOpenStream : String → String → Except HandlerErr StreamPayload :=
  fun _ _ => Except.ok ⟨[7, 8, 9], "f_720p.mp4", 3⟩

/-- Chunking the empty buffer yields no chunks, for any fuel. -/
theorem chunksAux_nil (fuel : Nat) : chunksAux fuel [] = [] := by
  cases fuel <;> rfl

/-- With enough fuel, the chunks concatenate back to the buffer. -/
theorem chunksAux_flatten (fuel : Nat) :
    ∀ d : List Nat, d.length ≤ fuel → (chunksAux fuel d).flatten = d := by
  induction fuel with
  | zero =>
    intro d h
    have hd : d = [] := List.eq_nil_of_length_eq_zero (Nat.le_zero.mp h)
    subst hd
    rfl
  | succ n ih =>
    intro d h
    cases d with
    | nil => rfl
    | cons x xs =>
      show (List.take CHUNK_SIZE (x :: xs) ::
        chunksAux n (List.drop CHUNK_SIZE (x :: xs))).flatten = x :: xs
      rw [List.flatten_cons, ih]
      · exact List.take_append_drop _ _
      · have hpos : 0 < CHUNK_SIZE := by decide
        rw [List.length_drop]
        simp only [List.length_cons] at h ⊢
        omega

/-- Every chunk holds at most `CHUNK_SIZE` bytes and is nonempty. -/
theorem chunksAux_bound (fuel : Nat) :
    ∀ d : List Nat, ∀ c ∈ chunksAux fuel d,
      c.length ≤ CHUNK_SIZE ∧ c ≠ [] := by
  induction fuel with
  | zero =>
    intro d c hc
    simp [chunksAux] at hc
  | succ n ih =>
    intro d c hc
    cases d with
    | nil => simp [chunksAux] at hc
    | cons x xs =>
      have hc' : c = List.take CHUNK_SIZE (x :: xs) ∨
          c ∈ chunksAux n (List.drop CHUNK_SIZE (x :: xs)) := by
        simpa [chunksAux] using hc
      rcases hc' with rfl | hc'
      · constructor
        · rw [List.length_take]
          exact min_le_left _ _
        · intro hnil
          have := congrArg List.length hnil
          rw [List.length_take] at this
          simp [CHUNK_SIZE] at this
      · exact ih _ c hc'

/-- A nonempty buffer yields a nonempty chunk list when the fuel is
positive. -/
theorem chunksAux_ne_nil (n : Nat) (x : Nat) (xs : List Nat) :
    chunksAux (n + 1) (x :: xs) ≠ [] := by
  simp [chunksAux]

/-- With enough fuel, every chunk except the last holds exactly
`CHUNK_SIZE` bytes. -/
theorem chunksAux_full (fuel : Nat) :
    ∀ d : List Nat, d.length ≤ fuel →
      ∀ c ∈ (chunksAux fuel d).dropLast, c.length = CHUNK_SIZE := by
  induction fuel with
  | zero =>
    intro d h c hc
    have hd : d = [] := List.eq_nil_of_length_eq_zero (Nat.le_zero.mp h)
    subst hd
    simp [chunksAux] at hc
  | succ n ih =>
    intro d h c hc
    cases d with
    | nil => simp [chunksAux] at hc
    | cons x xs =>
      have hstep : chunksAux (n + 1) (x :: xs) =
          List.take CHUNK_SIZE (x :: xs) ::
            chunksAux n (List.drop CHUNK_SIZE (x :: xs)) := rfl
      by_cases hrest : List.drop CHUNK_SIZE (x :: xs) = []
      · rw [hstep, hrest, chunksAux_nil] at hc
        simp [List.dropLast] at hc
      · have hlen : CHUNK_SIZE < (x :: xs).length := by
          by_contra hle
          exact hrest (List.drop_eq_nil_of_le (Nat.le_of_not_lt hle))
        obtain ⟨y, ys, hys⟩ : ∃ y ys, List.drop CHUNK_SIZE (x :: xs) = y :: ys := by
          cases hd : List.drop CHUNK_SIZE (x :: xs) with
          | nil => exact absurd hd hrest
          | cons y ys => exact ⟨y, ys, rfl⟩
        obtain ⟨m, hm⟩ : ∃ m, n = m + 1 := by
          have : (List.drop CHUNK_SIZE (x :: xs)).length ≤ n := by
            have hpos : 0 < CHUNK_SIZE := by decide
            rw [List.length_drop]
            simp only [List.length_cons] at h ⊢
            omega
          rw [hys] at this
          cases n with
          | zero => simp at this
          | succ m => exact ⟨m, rfl⟩
        have hne : chunksAux n (List.drop CHUNK_SIZE (x :: xs)) ≠ [] := by
          rw [hm, hys]
          exact chunksAux_ne_nil m y ys
        obtain ⟨z, zs, hz⟩ : ∃ z zs,
            chunksAux n (List.drop CHUNK_SIZE (x :: xs)) = z :: zs := by
          cases hd : chunksAux n (List.drop CHUNK_SIZE (x :: xs)) with
          | nil => exact absurd hd hne
          | cons z zs => exact ⟨z, zs, rfl⟩
        rw [hstep, hz, List.dropLast_cons₂] at hc
        rcases List.mem_cons.mp hc with rfl | hc'
        · rw [List.length_take]
          exact min_eq_left (Nat.le_of_lt hlen)
        · have hc'' : c ∈ (chunksAux n (List.drop CHUNK_SIZE (x :: xs))).dropLast := by
            rw [hz]
            exact hc'
          refine ih _ ?_ c hc''
          have hpos : 0 < CHUNK_SIZE := by decide
          rw [List.length_drop]
          simp only [List.length_cons] at h ⊢
          omega

/-- C3: the claim says the byte source is closed exactly once on every
exit path of the transmission.  Evaluating the `generate()` model at a
one-chunk buffer: a consumer that drains the generator does run
`byte_stream.close()` exactly once (the empty read after the last chunk
breaks the loop and closes), but a client abort - closing the generator
before the first pull, or after pulling the last chunk but before the
final empty read - skips the close entirely, because the loop has no
`try`/`finally`.  So on the abort path the code closes the source zero
times, contradicting the claim. -/
theorem close_skipped_on_client_abort :
    (generate_next (genInit [0])).1 = some [0] ∧
    ((generate_next ((generate_next (genInit [0])).2)).2).closeCount = 1 ∧
    (generate_close (genInit [0])).closeCount = 0 ∧
    (generate_close ((generate_next (genInit [0])).2)).closeCount = 0 := by
  decide

/-- C6 counterexample: the claim's example output is wrong.  Removing the
colon and slash from "Foo: Bar/Baz" yields "Foo BarBaz" - the slash is
removed, not replaced by a space - so the filename is
"Foo BarBaz_720p.mp4", not the claimed "Foo Bar Baz_720p.mp4". -/
theorem filename_example_cex :
    derive_filename "Foo: Bar/Baz" "720p" = "Foo BarBaz_720p.mp4" ∧
    derive_filename "Foo: Bar/Baz" "720p" ≠ "Foo Bar Baz_720p.mp4" := by
  decide

/-- C6 amended: the filename in a successful `stream_video` is the
deterministic function of title and resolution that keeps exactly the
characters in `[word chars, hyphen, underscore, period, space]` of the
title and appends the separator, resolution and extension; on the
claim's example the result is "Foo BarBaz_720p.mp4". -/
theorem filename_derivation (t a th : String) (len : Nat)
    (ss : List RawStream) (itag : String) (s : RawStream)
    (h : get_by_itag ss itag = some s) :
    (stream_video (Upstream.ok t a th len ss) itag).1 =
      Except.ok ⟨s.content, derive_filename t s.resolution, s.filesize⟩ ∧
    (safe_title t).data = t.data.filter filenameChar ∧
    derive_filename t s.resolution =
      safe_title t ++ "_" ++ s.resolution ++ ".mp4" ∧
    derive_filename "Foo: Bar/Baz" "720p" = "Foo BarBaz_720p.mp4" := by
  refine ⟨?_, rfl, rfl, by decide⟩
  simp [stream_video, stream_video_try, h]

/-- Witness for the amended C6 theorem at a concrete video and stream. -/
theorem filename_derivation_witness :
    get_by_itag [sampleStream720] "22" = some sampleStream720 ∧
    ((stream_video (Upstream.ok "Foo: Bar/Baz" "A" "U" 100 [sampleStream720])
        "22").1 =
      Except.ok ⟨sampleStream720.content,
        derive_filename "Foo: Bar/Baz" sampleStream720.resolution,
        sampleStream720.filesize⟩ ∧
    (safe_title "Foo: Bar/Baz").data =
      "Foo: Bar/Baz".data.filter filenameChar ∧
    derive_filename "Foo: Bar/Baz" sampleStream720.resolution =
      safe_title "Foo: Bar/Baz" ++ "_" ++ sampleStream720.resolution ++ ".mp4" ∧
    derive_filename "Foo: Bar/Baz" "720p" = "Foo BarBaz_720p.mp4") :=
  ⟨by decide,
    filename_derivation "Foo: Bar/Baz" "A" "U" 100 [sampleStream720] "22"
      sampleStream720 (by decide)⟩

/-- C2 counterexample: with one available stream of handle "22", calling
`stream_video` with the unmatched handle "999" does fail, but the
ValueError the caller observes carries the generic wrapped message, not
the bare invalid-resolution message the claim states: the inner
ValueError is re-caught by the function's own `except Exception`. -/
theorem invalid_itag_message_wrapped_cex :
    (stream_video (Upstream.ok "T" "A" "U" 100 [sampleStream720]) "999").1 =
      Except.error (PROCESSING_ERROR_HEAD ++ INVALID_RESOLUTION_MESSAGE) ∧
    (stream_video (Upstream.ok "T" "A" "U" 100 [sampleStream720]) "999").1 ≠
      Except.error INVALID_RESOLUTION_MESSAGE := by
  decide

/-- C2 amended: a handle matching no stream makes `stream_video` fail
with a ValueError whose message is the generic head prepended to
"invalid resolution", no `io.BytesIO` buffer is allocated (the count is
0: the buffer is created only after the lookup succeeds), and the
download endpoint surfaces the failure as HTTP 400 with that message. -/
theorem invalid_itag_rejected_without_allocation
    (vid t a th : String) (len : Nat) (ss : List RawStream) (itag : String)
    (hv : vid ≠ "") (hi : itag ≠ "") (h : get_by_itag ss itag = none) :
    stream_video (Upstream.ok t a th len ss) itag =
      (Except.error (PROCESSING_ERROR_HEAD ++ INVALID_RESOLUTION_MESSAGE), 0) ∧
    download (some vid) (some itag)
        (downloadPipelineOf (fun _ => Upstream.ok t a th len ss)) =
      jsonError 400 (PROCESSING_ERROR_HEAD ++ INVALID_RESOLUTION_MESSAGE) := by
  have hv' : (vid == "") = false := beq_eq_false_iff_ne.mpr hv
  have hi' : (itag == "") = false := beq_eq_false_iff_ne.mpr hi
  have h1 : stream_video (Upstream.ok t a th len ss) itag =
      (Except.error (PROCESSING_ERROR_HEAD ++ INVALID_RESOLUTION_MESSAGE), 0) := by
    simp [stream_video, stream_video_try, h, PyExc.message]
  refine ⟨h1, ?_⟩
  simp [download, falsy, hv', hi', downloadPipelineOf, h1]

/-- Witness for the amended C2 theorem at a concrete video and handle. -/
theorem invalid_itag_rejected_without_allocation_witness :
    get_by_itag [sampleStream720] "999" = none ∧
    (stream_video (Upstream.ok "T" "A" "U" 100 [sampleStream720]) "999" =
      (Except.error (PROCESSING_ERROR_HEAD ++ INVALID_RESOLUTION_MESSAGE), 0) ∧
    download (some "dQw4w9WgXcQ") (some "999")
        (downloadPipelineOf (fun _ => Upstream.ok "T" "A" "U" 100 [sampleStream720])) =
      jsonError 400 (PROCESSING_ERROR_HEAD ++ INVALID_RESOLUTION_MESSAGE)) :=
  ⟨by decide,
    invalid_itag_rejected_without_allocation "dQw4w9WgXcQ" "T" "A" "U" 100
      [sampleStream720] "999" (by decide) (by decide) (by decide)⟩

/-- C1: a video whose reported duration exceeds the ceiling makes
`get_video_info` fail with a ValueError (no metadata, hence no descriptor
list, is produced), and the video-info endpoint surfaces the failure as
HTTP 400 with no metadata in the body. -/
theorem duration_over_ceiling_rejected
    (vid t a th : String) (len : Nat) (ss : List RawStream)
    (hv : vid ≠ "") (hlen : MAX_VIDEO_DURATION < len) :
    get_video_info (Upstream.ok t a th len ss) =
      Except.error (PROCESSING_ERROR_HEAD ++ DURATION_LIMIT_MESSAGE) ∧
    video_info (some vid) (pipelineOf (fun _ => Upstream.ok t a th len ss)) =
      ⟨400, some (PROCESSING_ERROR_HEAD ++ DURATION_LIMIT_MESSAGE), none⟩ := by
  have hv' : (vid == "") = false := beq_eq_false_iff_ne.mpr hv
  have h1 : get_video_info (Upstream.ok t a th len ss) =
      Except.error (PROCESSING_ERROR_HEAD ++ DURATION_LIMIT_MESSAGE) := by
    simp [get_video_info, get_video_info_try, hlen, PyExc.message]
  refine ⟨h1, ?_⟩
  simp [video_info, falsy, hv', pipelineOf, h1]

/-- Witness for the C1 theorem: a 3601-second video with the default
3600-second ceiling. -/
theorem duration_over_ceiling_rejected_witness :
    MAX_VIDEO_DURATION < 3601 ∧
    (get_video_info (Upstream.ok "T" "A" "U" 3601 []) =
      Except.error (PROCESSING_ERROR_HEAD ++ DURATION_LIMIT_MESSAGE) ∧
    video_info (some "dQw4w9WgXcQ")
        (pipelineOf (fun _ => Upstream.ok "T" "A" "U" 3601 [])) =
      ⟨400, some (PROCESSING_ERROR_HEAD ++ DURATION_LIMIT_MESSAGE), none⟩) :=
  ⟨by decide,
    duration_over_ceiling_rejected "dQw4w9WgXcQ" "T" "A" "U" 3601 []
      (by decide) (by decide)⟩

/-- C9: the ValueErrors deliberately raised inside the try blocks - the
duration rejection in `get_video_info` and the invalid-itag rejection in
`stream_video` - are caught by the same function's final
`except Exception` handler and re-raised with the generic head
prepended: the inner raise carries the bare message (conjuncts 1 and 4),
the function's result carries the wrapped message (2 and 5), and the
bare message is never the observed result (3 and 6). -/
theorem internal_valueerror_wrapped
    (t a th : String) (len : Nat) (ss : List RawStream) (itag : String)
    (hlen : MAX_VIDEO_DURATION < len) (hitag : get_by_itag ss itag = none) :
    get_video_info_try (Upstream.ok t a th len ss) =
      Except.error (PyExc.valueError DURATION_LIMIT_MESSAGE) ∧
    get_video_info (Upstream.ok t a th len ss) =
      Except.error (PROCESSING_ERROR_HEAD ++ DURATION_LIMIT_MESSAGE) ∧
    get_video_info (Upstream.ok t a th len ss) ≠
      Except.error DURATION_LIMIT_MESSAGE ∧
    (stream_video_try (Upstream.ok t a th len ss) itag).1 =
      Except.error (PyExc.valueError INVALID_RESOLUTION_MESSAGE) ∧
    (stream_video (Upstream.ok t a th len ss) itag).1 =
      Except.error (PROCESSING_ERROR_HEAD ++ INVALID_RESOLUTION_MESSAGE) ∧
    (stream_video (Upstream.ok t a th len ss) itag).1 ≠
      Except.error INVALID_RESOLUTION_MESSAGE := by
  have h1 : get_video_info_try (Upstream.ok t a th len ss) =
      Except.error (PyExc.valueError DURATION_LIMIT_MESSAGE) := by
    simp [get_video_info_try, hlen]
  have h2 : get_video_info (Upstream.ok t a th len ss) =
      Except.error (PROCESSING_ERROR_HEAD ++ DURATION_LIMIT_MESSAGE) := by
    simp [get_video_info, h1, PyExc.message]
  have h4 : (stream_video_try (Upstream.ok t a th len ss) itag).1 =
      Except.error (PyExc.valueError INVALID_RESOLUTION_MESSAGE) := by
    simp [stream_video_try, hitag]
  have h5 : (stream_video (Upstream.ok t a th len ss) itag).1 =
      Except.error (PROCESSING_ERROR_HEAD ++ INVALID_RESOLUTION_MESSAGE) := by
    simp [stream_video, stream_video_try, hitag, PyExc.message]
  refine ⟨h1, h2, ?_, h4, h5, ?_⟩
  · rw [h2]
    decide
  · rw [h5]
    decide

/-- Witness for the C9 theorem: an over-ceiling video with no streams and
an unmatched handle. -/
theorem internal_valueerror_wrapped_witness :
    (MAX_VIDEO_DURATION < 3601 ∧ get_by_itag [] "999" = none) ∧
    (get_video_info_try (Upstream.ok "T" "A" "U" 3601 []) =
      Except.error (PyExc.valueError DURATION_LIMIT_MESSAGE) ∧
    get_video_info (Upstream.ok "T" "A" "U" 3601 []) =
      Except.error (PROCESSING_ERROR_HEAD ++ DURATION_LIMIT_MESSAGE) ∧
    get_video_info (Upstream.ok "T" "A" "U" 3601 []) ≠
      Except.error DURATION_LIMIT_MESSAGE ∧
    (stream_video_try (Upstream.ok "T" "A" "U" 3601 []) "999").1 =
      Except.error (PyExc.valueError INVALID_RESOLUTION_MESSAGE) ∧
    (stream_video (Upstream.ok "T" "A" "U" 3601 []) "999").1 =
      Except.error (PROCESSING_ERROR_HEAD ++ INVALID_RESOLUTION_MESSAGE) ∧
    (stream_video (Upstream.ok "T" "A" "U" 3601 []) "999").1 ≠
      Except.error INVALID_RESOLUTION_MESSAGE) :=
  ⟨⟨by decide, by decide⟩,
    internal_valueerror_wrapped "T" "A" "U" 3601 [] "999"
      (by decide) (by decide)⟩

/-- C4: the validator returns true exactly when the domain regex search
succeeds with an allow-listed (membership or suffix) domain and the URL
contains a video-id-shaped substring; a failed domain parse yields false
rather than an error; and the three example URLs behave as claimed. -/
theorem is_valid_youtube_url_spec :
    (∀ url : String, is_valid_youtube_url url = true ↔
      ((∃ d, searchDomain url.data = some d ∧
          domainAllowed (String.mk d) = true) ∧
        hasVideoId url.data = true)) ∧
    (∀ url : String, searchDomain url.data = none →
      is_valid_youtube_url url = false) ∧
    is_valid_youtube_url "https://www.youtube.com/watch?v=dQw4w9WgXcQ" = true ∧
    is_valid_youtube_url "https://vimeo.com/12345" = false ∧
    is_valid_youtube_url "https://youtu.be/short" = false := by
  refine ⟨?_, ?_, by decide, by decide, by decide⟩
  · intro url
    unfold is_valid_youtube_url
    cases hd : searchDomain url.data with
    | none => simp
    | some d =>
      by_cases ha : domainAllowed (String.mk d) = true
      · simp [ha]
      · simp [ha]
  · intro url h
    unfold is_valid_youtube_url
    rw [h]

/-- Witness for the parse-failure clause of the C4 theorem: an input
with no scheme makes the domain search fail and the validator return
false. -/
theorem is_valid_youtube_url_spec_witness :
    searchDomain "youtube.com/watch?v=dQw4w9WgXcQ".data = none ∧
    is_valid_youtube_url "youtube.com/watch?v=dQw4w9WgXcQ" = false :=
  ⟨by decide,
    is_valid_youtube_url_spec.2.1 "youtube.com/watch?v=dQw4w9WgXcQ" (by decide)⟩

/-- After the descending sort, the formatted descriptor list is sorted
by numeric height, highest first. -/
theorem sorted_formatted_desc (l : List RawStream) :
    List.Sorted infoGE ((order_by_resolution_desc l).map formatStream) := by
  rw [List.Sorted, List.pairwise_map]
  unfold order_by_resolution_desc
  rw [List.pairwise_reverse]
  exact List.sorted_insertionSort streamLE l

/-- Every formatted descriptor of the sorted list comes from a stream of
the input list. -/
theorem mem_formatted_desc (l : List RawStream) (d : StreamInfo)
    (hd : d ∈ (order_by_resolution_desc l).map formatStream) :
    ∃ s, s ∈ l ∧ d = formatStream s := by
  rcases List.mem_map.mp hd with ⟨s, hs, rfl⟩
  refine ⟨s, ?_, rfl⟩
  have hs' : s ∈ order_by_resolution l := List.mem_reverse.mp hs
  exact ((List.perm_insertionSort streamLE l).mem_iff).mp hs'

/-- C5: a successful `get_video_info` returns a descriptor list that is
sorted by numeric resolution height descending and contains only
(formatted) progressive MP4 streams of the upstream video; the function
is pure, so repeated calls on the same upstream response agree. -/
theorem get_video_info_streams_sorted_desc
    (t a th : String) (len : Nat) (ss : List RawStream) (info : VideoInfo)
    (h : get_video_info (Upstream.ok t a th len ss) = Except.ok info) :
    List.Sorted infoGE info.streams ∧
    (∀ d ∈ info.streams, ∃ s, s ∈ ss ∧ s.progressive = true ∧
      mime_subtype s.mime_type = "mp4" ∧ d = formatStream s) ∧
    (∀ u : Upstream, get_video_info u = get_video_info u) := by
  have hinfo : info = ⟨t, a, len, th,
      (order_by_resolution_desc (progressiveMp4 ss)).map formatStream⟩ := by
    unfold get_video_info get_video_info_try at h
    by_cases hlen : MAX_VIDEO_DURATION < len
    · simp [hlen] at h
    · simp [hlen] at h
      exact h.symm
  subst hinfo
  refine ⟨sorted_formatted_desc _, ?_, fun u => rfl⟩
  intro d hd
  rcases mem_formatted_desc _ d hd with ⟨s, hs, rfl⟩
  rcases List.mem_filter.mp hs with ⟨hmem, hcond⟩
  simp only [Bool.and_eq_true, beq_iff_eq] at hcond
  exact ⟨s, hmem, hcond.1, hcond.2, rfl⟩

/-- Witness for the C5 theorem: an upstream video whose progressive MP4
streams arrive unordered (360p before 720p) together with a WebM and an
adaptive stream; the result keeps only the two progressive MP4 streams,
720p first. -/
theorem get_video_info_streams_sorted_desc_witness :
    get_video_info sampleUpstream = Except.ok sampleResult ∧
    (List.Sorted infoGE sampleResult.streams ∧
    (∀ d ∈ sampleResult.streams, ∃ s,
      s ∈ [sampleStream360, sampleStreamAdaptive, sampleStream720,
        sampleStreamWebm] ∧ s.progressive = true ∧
      mime_subtype s.mime_type = "mp4" ∧ d = formatStream s) ∧
    (∀ u : Upstream, get_video_info u = get_video_info u)) :=
  ⟨by decide,
    get_video_info_streams_sorted_desc "Title" "Author" "Thumb" 120
      [sampleStream360, sampleStreamAdaptive, sampleStream720,
        sampleStreamWebm] sampleResult (by decide)⟩

/-- C7: a successful download response has status 200, the video/mp4
content type, the attachment disposition with the derived filename, the
declared filesize as content length, the bytes accept-ranges header, and
a body whose chunks concatenate to the buffer, each chunk except the
last holding exactly one MiB and none exceeding one MiB; a request with
a missing parameter receives 400. -/
theorem download_success_response
    (vid res : String) (hv : vid ≠ "") (hr : res ≠ "")
    (os : String → String → Except HandlerErr StreamPayload)
    (p : StreamPayload) (h : os vid res = Except.ok p) :
    download (some vid) (some res) os =
      ⟨200, some "video/mp4", some ("attachment; filename=" ++ p.filename),
        some (toString p.filesize), some "bytes",
        generate_chunks p.byte_stream, none⟩ ∧
    (generate_chunks p.byte_stream).flatten = p.byte_stream ∧
    (∀ c ∈ (generate_chunks p.byte_stream).dropLast, c.length = CHUNK_SIZE) ∧
    (∀ c ∈ generate_chunks p.byte_stream, c.length ≤ CHUNK_SIZE ∧ c ≠ []) ∧
    download none (some res) os = jsonError 400 MISSING_PARAMS_MESSAGE ∧
    download (some vid) none os = jsonError 400 MISSING_PARAMS_MESSAGE := by
  have hv' : (vid == "") = false := beq_eq_false_iff_ne.mpr hv
  have hr' : (res == "") = false := beq_eq_false_iff_ne.mpr hr
  refine ⟨?_, chunksAux_flatten _ _ (Nat.le_refl _),
    chunksAux_full _ _ (Nat.le_refl _), chunksAux_bound _ _, ?_, ?_⟩
  · simp [download, falsy, hv', hr', h]
  · simp [download, falsy]
  · simp [download, falsy]

/-- Witness for the C7 theorem: a three-byte stream payload. -/
theorem download_success_response_witness :
    sampleOpenStream "dQw4w9WgXcQ" "22" =
      Except.ok ⟨[7, 8, 9], "f_720p.mp4", 3⟩ ∧
    (download (some "dQw4w9WgXcQ") (some "22") sampleOpenStream =
      ⟨200, some "video/mp4", some ("attachment; filename=" ++ "f_720p.mp4"),
        some (toString 3), some "bytes", generate_chunks [7, 8, 9], none⟩ ∧
    (generate_chunks ([7, 8, 9] : List Nat)).flatten = [7, 8, 9] ∧
    (∀ c ∈ (generate_chunks ([7, 8, 9] : List Nat)).dropLast,
      c.length = CHUNK_SIZE) ∧
    (∀ c ∈ generate_chunks ([7, 8, 9] : List Nat),
      c.length ≤ CHUNK_SIZE ∧ c ≠ []) ∧
    download none (some "22") sampleOpenStream =
      jsonError 400 MISSING_PARAMS_MESSAGE ∧
    download (some "dQw4w9WgXcQ") none sampleOpenStream =
      jsonError 400 MISSING_PARAMS_MESSAGE) :=
  ⟨rfl,
    download_success_response "dQw4w9WgXcQ" "22" (by decide) (by decide)
      sampleOpenStream ⟨[7, 8, 9], "f_720p.mp4", 3⟩ rfl⟩

/-- C8: the video-info endpoint maps failures to exactly three outcomes:
a missing id gives 400 with the missing-parameter message; a ValueError
from the body gives 400 with that error's message; any other exception
gives 500 with the generic message (the detail is not in the response);
a success gives 200 with the metadata. -/
theorem video_info_error_mapping
    (fetch : String → Except HandlerErr VideoInfo) (vid : String)
    (hv : vid ≠ "") (m : String) (i : VideoInfo) :
    video_info none fetch = ⟨400, some MISSING_ID_MESSAGE, none⟩ ∧
    (fetch vid = Except.error (HandlerErr.valueError m) →
      video_info (some vid) fetch = ⟨400, some m, none⟩) ∧
    (fetch vid = Except.error (HandlerErr.otherExc m) →
      video_info (some vid) fetch = ⟨500, some INTERNAL_ERROR_MESSAGE, none⟩) ∧
    (fetch vid = Except.ok i →
      video_info (some vid) fetch = ⟨200, none, some i⟩) := by
  have hv' : (vid == "") = false := beq_eq_false_iff_ne.mpr hv
  refine ⟨by simp [video_info, falsy], ?_, ?_, ?_⟩ <;>
    intro h <;> simp [video_info, falsy, hv', h]

/-- Witness for the C8 theorem: the three failure shapes and the success
shape at concrete bodies. -/
theorem video_info_error_mapping_witness :
    video_info none (fun _ => Except.error (HandlerErr.valueError "boom")) =
      ⟨400, some MISSING_ID_MESSAGE, none⟩ ∧
    video_info (some "v") (fun _ => Except.error (HandlerErr.valueError "boom")) =
      ⟨400, some "boom", none⟩ ∧
    video_info (some "v") (fun _ => Except.error (HandlerErr.otherExc "boom")) =
      ⟨500, some INTERNAL_ERROR_MESSAGE, none⟩ ∧
    video_info (some "v") (fun _ => Except.ok ⟨"t", "a", 10, "u", []⟩) =
      ⟨200, none, some ⟨"t", "a", 10, "u", []⟩⟩ :=
  ⟨(video_info_error_mapping
      (fun _ => Except.error (HandlerErr.valueError "boom")) "v"
      (by decide) "boom" ⟨"t", "a", 10, "u", []⟩).1,
   (video_info_error_mapping
      (fun _ => Except.error (HandlerErr.valueError "boom")) "v"
      (by decide) "boom" ⟨"t", "a", 10, "u", []⟩).2.1 rfl,
   (video_info_error_mapping
      (fun _ => Except.error (HandlerErr.otherExc "boom")) "v"
      (by decide) "boom" ⟨"t", "a", 10, "u", []⟩).2.2.1 rfl,
   (video_info_error_mapping
      (fun _ => Except.ok ⟨"t", "a", 10, "u", []⟩) "v"
      (by decide) "boom" ⟨"t", "a", 10, "u", []⟩).2.2.2 rfl⟩

/-- C10: supplying a required parameter as the empty string is treated
exactly like omitting it - the handlers test falsiness, not presence -
and the result is the missing-parameter 400 response for every possible
pipeline body, so the extractor is never consulted. -/
theorem empty_param_like_missing :
    (∀ fetch : String → Except HandlerErr VideoInfo,
      video_info (some "") fetch = video_info none fetch) ∧
    (∀ fetch : String → Except HandlerErr VideoInfo,
      video_info (some "") fetch = ⟨400, some MISSING_ID_MESSAGE, none⟩) ∧
    (∀ (os : String → String → Except HandlerErr StreamPayload) (r : String),
      download (some "") (some r) os = download none (some r) os) ∧
    (∀ (os : String → String → Except HandlerErr StreamPayload) (r : String),
      download (some "") (some r) os = jsonError 400 MISSING_PARAMS_MESSAGE) ∧
    (∀ (os : String → String → Except HandlerErr StreamPayload) (v : String),
      download (some v) (some "") os = download (some v) none os) ∧
    (∀ (os : String → String → Except HandlerErr StreamPayload) (v : String),
      download (some v) (some "") os = jsonError 400 MISSING_PARAMS_MESSAGE) := by
  refine ⟨fun fetch => rfl, fun fetch => rfl, fun os r => rfl, fun os r => rfl,
    ?_, ?_⟩ <;> intro os v <;> simp [download, falsy]

end App
